import Mathlib

/-!
Verification development for the bsky-rmcp MCP server.

The Rust sources (src/service.rs, src/types.rs, src/utils.rs) are shallowly
embedded below.  The remote API client (bsky_sdk / atrium) and the MCP
dispatcher are external collaborators; they are modelled as an explicit
environment record whose fields stand for the typed requests the handlers
issue.  Each handler returns, alongside its result, the list of upstream
requests it issued, so that statements about "no upstream call made" and
about the parameters of issued requests can be made directly.
-/

/-- Notification reason enum, from types.rs (ReasonEnum). -/
inductive ReasonEnum where
  | like
  | repost
  | follow
  | mention
  | reply
  | quote
  | starterpackJoined
  | verified
  | unverified
deriving DecidableEq

/-- Wire token of a reason, from the Display impl for ReasonEnum in types.rs. -/
def reasonToWire : ReasonEnum → String
  | ReasonEnum.like => "like"
  | ReasonEnum.repost => "repost"
  | ReasonEnum.follow => "follow"
  | ReasonEnum.mention => "mention"
  | ReasonEnum.reply => "reply"
  | ReasonEnum.quote => "quote"
  | ReasonEnum.starterpackJoined => "starterpack-joined"
  | ReasonEnum.verified => "verified"
  | ReasonEnum.unverified => "unverified"

/-- Decode path of ReasonEnum, from the serde Deserialize derive with
rename_all = "kebab-case" in types.rs: each variant name maps to its
kebab-case token and every other token is rejected. -/
def reasonFromWire (s : String) : Option ReasonEnum :=
  if s = "like" then some ReasonEnum.like
  else if s = "repost" then some ReasonEnum.repost
  else if s = "follow" then some ReasonEnum.follow
  else if s = "mention" then some ReasonEnum.mention
  else if s = "reply" then some ReasonEnum.reply
  else if s = "quote" then some ReasonEnum.quote
  else if s = "starterpack-joined" then some ReasonEnum.starterpackJoined
  else if s = "verified" then some ReasonEnum.verified
  else if s = "unverified" then some ReasonEnum.unverified
  else none

/-- Default limit for feed/search/notification calls, from types.rs
(fn default_limit). -/
def default_limit : Nat := 10

/-- Default reply depth for the thread call, from types.rs (fn default_depth). -/
def default_depth : Nat := 1

/-- Default parent height for the thread call, from types.rs
(fn default_parent_height). -/
def default_parent_height : Nat := 10

/-- Modelled from the spec: service.rs imports constants DEFAULT_LIMIT,
DEFAULT_DEPTH and DEFAULT_PARENT_HEIGHT from types.rs, but the provided
types.rs revision defines them as the functions default_limit, default_depth
and default_parent_height instead; the spec states the defaults are 10 for
limit, 1 for depth and 10 for parent height, matching those functions. -/
def DEFAULT_LIMIT : Nat := default_limit

/-- Modelled from the spec: see DEFAULT_LIMIT. -/
def DEFAULT_DEPTH : Nat := default_depth

/-- Modelled from the spec: see DEFAULT_LIMIT. -/
def DEFAULT_PARENT_HEIGHT : Nat := default_parent_height

/-- TryFrom u8 into the API limit type LimitedNonZeroU8 with maximum maxVal:
fails on zero and on values above the maximum. -/
def tryIntoLimitedNonZeroU8 (maxVal : Nat) (n : Nat) : Except String Nat :=
  if n = 0 || maxVal < n then Except.error "out of range" else Except.ok n

/-- TryFrom u16 into the API type LimitedU16 with maximum maxVal:
fails on values above the maximum (zero is allowed). -/
def tryIntoLimitedU16 (maxVal : Nat) (n : Nat) : Except String Nat :=
  if maxVal < n then Except.error "out of range" else Except.ok n

/-- A notification, as used by service.rs: only its uri and reason matter
to the embedded code. -/
structure Notification where
  uri : String
  reason : String
deriving DecidableEq

/-- The post data inside a thread view that the resolver inspects:
the post's uri and its author's DID. -/
structure PostInfo where
  uri : String
  authorDid : String
deriving DecidableEq

/-- The thread union returned by getPostThread, from
app.bsky.feed.getPostThread: a thread view post (with optional replies,
each itself the same union), a not-found post, or a blocked post. -/
inductive ThreadNode where
  | viewPost (post : PostInfo) (replies : Option (List ThreadNode))
  | notFoundPost
  | blockedPost

/-- Parameters of one getPostThread request as issued by the code. -/
structure ThreadRequest where
  uri : String
  depth : Nat
  parentHeight : Nat
deriving DecidableEq

/-- An upstream request issued by a handler. -/
inductive Request where
  | listNotifs (limit : Nat) (reasons : List String)
  | postThread (req : ThreadRequest)
  | authorFeed (actor : String) (filter : Option String) (limit : Nat)
  | searchReq (q : String) (limit : Nat)
deriving DecidableEq

/-- The rmcp Error values built via Error::internal_error(message, data). -/
structure McpError where
  message : String
  data : Option String
deriving DecidableEq

/-- A JSON value, for the convert_datetime post-processing in utils.rs. -/
inductive Json where
  | null
  | bool (b : Bool)
  | num (n : Int)
  | str (s : String)
  | arr (items : List Json)
  | obj (fields : List (String × Json))

/-- The external collaborators: the authenticated API client (agent) and the
datetime parsing/localisation done by chrono inside convert_datetime.
Each API field returns either an upstream error message or typed data. -/
structure Env where
  listNotifications : Nat → List String → Except String (List Notification)
  getPostThread : ThreadRequest → Except String ThreadNode
  getAuthorFeed : String → Option String → Nat → Except String Json
  searchPosts : String → Nat → Except String Json
  parseActor : String → Except String String
  did : Option String
  conv : String → Option String

/-- Character-list prefix check: does the second list start with the first. -/
def prefMatch : List Char → List Char → Bool
  | [], _ => true
  | _ :: _, [] => false
  | a :: ps, b :: ss => a = b && prefMatch ps ss

/-- Rust str::ends_with, modelled on character lists so that it evaluates:
the reversed subject starts with the reversed suffix. -/
def endsWithStr (s suffix : String) : Bool :=
  prefMatch suffix.data.reverse s.data.reverse

mutual

/-- The recursive body of convert_datetime (utils.rs lines 48-76): objects
and arrays are rebuilt recursively, every other value is returned as is.
The conv parameter stands for the chrono collaborator: parsing a string as a
Datetime, converting it to the local timezone and re-serializing it (none
when the string does not parse as a datetime). -/
def convertVal (conv : String → Option String) : Json → Json
  | Json.obj fields => Json.obj (convertFields conv fields)
  | Json.arr items => Json.arr (convertItems conv items)
  | v => v

/-- The object branch of convert_datetime (utils.rs lines 50-66): for a key
ending in "At" holding a string that parses as a datetime, the converted
datetime is stored instead; every other entry is recursed into, under the
same key. -/
def convertFields (conv : String → Option String) :
    List (String × Json) → List (String × Json)
  | [] => []
  | (k, v) :: rest =>
    let v2 :=
      if endsWithStr k "At" then
        match v with
        | Json.str s =>
          match conv s with
          | some s2 => Json.str s2
          | none => convertVal conv v
        | _ => convertVal conv v
      else convertVal conv v
    (k, v2) :: convertFields conv rest

/-- The array branch of convert_datetime (utils.rs lines 68-73). -/
def convertItems (conv : String → Option String) : List Json → List Json
  | [] => []
  | v :: rest => convertVal conv v :: convertItems conv rest

end

/-- convert_datetime (utils.rs lines 43-78) on an already-serialized value. -/
def convert_datetime (conv : String → Option String) (v : Json) : Json :=
  convertVal conv v

/-- Membership in the transient replied set (HashSet of uris). -/
def memb (u : String) : List String → Bool
  | [] => false
  | v :: rest => (v == u) || memb u rest

/-- HashSet insert on the replied set. -/
def insertSet (s : List String) (u : String) : List String :=
  if memb u s then s else s ++ [u]

/-- Whether one reply item of a thread view is a reply authored by the given
DID, from the closure inside get_unreplied_mentions (service.rs lines
324-332): only ThreadViewPost items count, others are false. -/
def selfReplyItem (did : String) (r : ThreadNode) : Bool :=
  match r with
  | ThreadNode.viewPost p _ => p.authorDid == did
  | _ => false

/-- One step of the replied-set construction, from service.rs lines 317-337:
if the thread is a ThreadViewPost whose replies contain a reply authored by
the given DID, insert the thread's own post uri into the set. -/
def updateReplied (did : String) (replied : List String) (t : ThreadNode) :
    List String :=
  match t with
  | ThreadNode.viewPost post (some replies) =>
    if replies.any (selfReplyItem did) then insertSet replied post.uri
    else replied
  | _ => replied

/-- The collection loop of get_unreplied_mentions (service.rs lines 300-338):
await each fetched thread in order, propagating the first error (wrapped as
"failed to get post thread"), otherwise update the replied set. -/
def collectReplied (did : String) (replied : List String) :
    List (Except String ThreadNode) → Except McpError (List String)
  | [] => Except.ok replied
  | r :: rest =>
    match r with
    | Except.error e =>
      Except.error (McpError.mk "failed to get post thread" (some e))
    | Except.ok t => collectReplied did (updateReplied did replied t) rest

/-- Parameters of the private list-notifications helper (service.rs). -/
structure ListNotificationsParams where
  limit : Option Nat
  reasons : List ReasonEnum

/-- The private helper _list_notifications (service.rs lines 355-392):
resolve the limit (default applied, then converted into the bounded API
type), then issue one listNotifications request with the reasons rendered
to their wire tokens.  Alongside the result, the list of issued upstream
requests is returned. -/
def _list_notifications (env : Env) (p : ListNotificationsParams) :
    Except McpError (List Notification) × List Request :=
  match tryIntoLimitedNonZeroU8 100 (p.limit.getD DEFAULT_LIMIT) with
  | Except.error e =>
    (Except.error (McpError.mk "failed to parse limit" (some e)), [])
  | Except.ok limit =>
    let reasonsWire := p.reasons.map reasonToWire
    match env.listNotifications limit reasonsWire with
    | Except.error e =>
      (Except.error (McpError.mk "failed to list notifications" (some e)),
       [Request.listNotifs limit reasonsWire])
    | Except.ok notifs =>
      (Except.ok notifs, [Request.listNotifs limit reasonsWire])

/-- The unreplied-mentions resolver, get_unreplied_mentions (service.rs lines
258-354): list mention/reply notifications, dispatch one getPostThread
request per notification with depth 1 and parent height 0, resolve the
account DID, collect the threads (first error aborts), build the replied
set, and filter the notifications to those whose uri is not in the set.
The JSON re-serialization of the surviving notifications is the
convert_datetime collaborator step and is not part of this function. -/
def get_unreplied_mentions (env : Env) (maxNum : Option Nat) :
    Except McpError (List Notification) × List Request :=
  match _list_notifications env
      (ListNotificationsParams.mk maxNum [ReasonEnum.mention, ReasonEnum.reply]) with
  | (Except.error e, reqs) => (Except.error e, reqs)
  | (Except.ok notifications, reqs) =>
    let results := notifications.map
      (fun n => env.getPostThread (ThreadRequest.mk n.uri 1 0))
    let reqs2 := reqs ++ notifications.map
      (fun n => Request.postThread (ThreadRequest.mk n.uri 1 0))
    match env.did with
    | none => (Except.error (McpError.mk "failed to get did" none), reqs2)
    | some did =>
      match collectReplied did [] results with
      | Except.error e => (Except.error e, reqs2)
      | Except.ok replied =>
        (Except.ok (notifications.filter (fun n => !(memb n.uri replied))),
         reqs2)

/-- Parameters of get_author_feed (service.rs lines 85-88). -/
structure GetAuthorFeedParams where
  actor : String
  with_replies : Option Bool
  limit : Option Nat

/-- The get_author_feed handler (service.rs lines 85-137): parse the actor,
compute the reply filter, resolve the limit, then issue one getAuthorFeed
request and run convert_datetime over the serialized feed. -/
def get_author_feed (env : Env) (p : GetAuthorFeedParams) :
    Except McpError Json × List Request :=
  match env.parseActor p.actor with
  | Except.error e =>
    (Except.error (McpError.mk "failed to parse actor" (some e)), [])
  | Except.ok actor =>
    let filter := if p.with_replies.getD false then none
                  else some "posts_no_replies"
    match tryIntoLimitedNonZeroU8 100 (p.limit.getD DEFAULT_LIMIT) with
    | Except.error e =>
      (Except.error (McpError.mk "failed to parse limit" (some e)), [])
    | Except.ok limit =>
      match env.getAuthorFeed actor filter limit with
      | Except.error e =>
        (Except.error (McpError.mk "failed to get author feed" (some e)),
         [Request.authorFeed actor filter limit])
      | Except.ok feed =>
        (Except.ok (convertVal env.conv feed),
         [Request.authorFeed actor filter limit])

/-- Parameters of search_posts (service.rs lines 192-195). -/
structure SearchPostsParams where
  q : String
  limit : Option Nat

/-- The search_posts handler (service.rs lines 191-240): resolve the limit,
issue one searchPosts request, convert_datetime over the serialized posts. -/
def search_posts (env : Env) (p : SearchPostsParams) :
    Except McpError Json × List Request :=
  match tryIntoLimitedNonZeroU8 100 (p.limit.getD DEFAULT_LIMIT) with
  | Except.error e =>
    (Except.error (McpError.mk "failed to parse limit" (some e)), [])
  | Except.ok limit =>
    match env.searchPosts p.q limit with
    | Except.error e =>
      (Except.error (McpError.mk "failed to search posts" (some e)),
       [Request.searchReq p.q limit])
    | Except.ok posts =>
      (Except.ok (convertVal env.conv posts), [Request.searchReq p.q limit])

/-- Parameters of get_post_thread (service.rs lines 139-142). -/
structure GetPostThreadParams where
  uri : String
  depth : Option Nat
  parent_height : Option Nat

/-- The get_post_thread handler (service.rs lines 138-190): resolve depth and
parent height (defaults applied, bounded at 1000), then issue one
getPostThread request.  The convert_datetime serialization of the returned
thread is the collaborator step. -/
def get_post_thread (env : Env) (p : GetPostThreadParams) :
    Except McpError ThreadNode × List Request :=
  match tryIntoLimitedU16 1000 (p.depth.getD DEFAULT_DEPTH) with
  | Except.error e =>
    (Except.error (McpError.mk "failed to parse depth" (some e)), [])
  | Except.ok depth =>
    match tryIntoLimitedU16 1000 (p.parent_height.getD DEFAULT_PARENT_HEIGHT) with
    | Except.error e =>
      (Except.error (McpError.mk "failed to parse parent height" (some e)), [])
    | Except.ok ph =>
      match env.getPostThread (ThreadRequest.mk p.uri depth ph) with
      | Except.error e =>
        (Except.error (McpError.mk "failed to get post thread" (some e)),
         [Request.postThread (ThreadRequest.mk p.uri depth ph)])
      | Except.ok t =>
        (Except.ok t, [Request.postThread (ThreadRequest.mk p.uri depth ph)])

/-- Rust str::splitn semantics on a character list: split at the first
count-1 occurrences of the separator, the last piece keeping the rest. -/
def splitnChars (sep : Char) : List Char → Nat → List (List Char)
  | _, 0 => []
  | cs, 1 => [cs]
  | [], _ + 2 => [[]]
  | c :: rest, n + 2 =>
    if c = sep then [] :: splitnChars sep rest (n + 1)
    else
      match splitnChars sep rest (n + 2) with
      | [] => [[c]]
      | h :: t => (c :: h) :: t

/-- Rust str::splitn on strings. -/
def splitn (count : Nat) (sep : Char) (s : String) : List String :=
  (splitnChars sep s.data count).map (fun cs => String.mk cs)

/-- Rust str::strip_prefix, on character lists. -/
def stripPfx : List Char → List Char → Option (List Char)
  | [], s => some s
  | _ :: _, [] => none
  | a :: ps, b :: ss => if a = b then stripPfx ps ss else none

/-- Outcome of the AT-URI decomposition at the top of get_post. -/
inductive GetPostStep where
  | invalidUri
  | panicIndexOutOfBounds (idx : Nat)
  | requested (repo : String) (collection : String) (rkey : String)
deriving DecidableEq

/-- The AT-URI decomposition of get_post (utils.rs lines 14-25): strip the
"at://" scheme (error "invalid AT URI" when absent), split the rest at the
first two slashes, then index parts 0, 1 and 2 of the pieces.  An index past the end of
parts is an out-of-bounds panic, modelled explicitly.  The subsequent
.parse() validation of repo, collection and rkey is done by the atrium
collaborator types and is outside this embedding. -/
def get_post_parse (atUri : String) : GetPostStep :=
  match stripPfx "at://".data atUri.data with
  | none => GetPostStep.invalidUri
  | some rest =>
    let parts := splitn 3 '/' (String.mk rest)
    match parts.get? 0 with
    | none => GetPostStep.panicIndexOutOfBounds 0
    | some repo =>
      match parts.get? 1 with
      | none => GetPostStep.panicIndexOutOfBounds 1
      | some collection =>
        match parts.get? 2 with
        | none => GetPostStep.panicIndexOutOfBounds 2
        | some rkey => GetPostStep.requested repo collection rkey

/-- A com.atproto.repo strongRef: content hash and uri of a record. -/
structure StrongRef where
  cid : String
  uri : String
deriving DecidableEq

/-- An app.bsky.feed.post reply reference: parent and root strong refs. -/
structure ReplyRef where
  parent : StrongRef
  root : StrongRef
deriving DecidableEq

/-- The part of an app.bsky.feed.post record that create_post inspects. -/
structure PostRecord where
  text : String
  reply : Option ReplyRef
deriving DecidableEq

/-- The getRecord output create_post works on: the record's uri, its
optional content hash, and the record value as parsed by try_from_unknown
(an error when the value is not an app.bsky.feed.post record). -/
structure GetRecordOutput where
  uri : String
  cid : Option String
  value : Except String PostRecord

/-- The reply-reference construction of create_post (service.rs lines
408-441): build the strong ref to the target post (error when its cid is
missing), parse the target record (error when conversion fails), then root
the new post at the target record's own reply.root when present, at the
target itself otherwise; the parent is always the target. -/
def create_post_reply_ref (output : GetRecordOutput) :
    Except McpError ReplyRef :=
  match output.cid with
  | none => Except.error (McpError.mk "failed to get cid" none)
  | some c =>
    let strong_ref := StrongRef.mk c output.uri
    match output.value with
    | Except.error e =>
      Except.error (McpError.mk "failed to convert record" (some e))
    | Except.ok record =>
      let root :=
        match record.reply with
        | some reply => reply.root
        | none => strong_ref
      Except.ok (ReplyRef.mk strong_ref root)

/-- Whether a thread view contains a direct reply authored by the DID. -/
def selfReplied (did : String) (t : ThreadNode) : Bool :=
  match t with
  | ThreadNode.viewPost _ (some replies) => replies.any (selfReplyItem did)
  | _ => false

/-- Whether processing thread t makes the replied set gain uri u. -/
def marksUri (did : String) (t : ThreadNode) (u : String) : Bool :=
  match t with
  | ThreadNode.viewPost post (some replies) =>
    replies.any (selfReplyItem did) && (post.uri == u)
  | _ => false

/-- Well-formedness of a fetched thread view with respect to the uri it was
requested for: a thread view post carries that uri as its own post uri. -/
def rootCoherent (t : ThreadNode) (u : String) : Bool :=
  match t with
  | ThreadNode.viewPost post _ => post.uri == u
  | _ => true

/-- Whether a request is a thread fetch. -/
def isThreadFetch : Request → Bool
  | Request.postThread _ => true
  | _ => false

/-- The request parameters claimed for the resolver: notification listing
filtered to mention and reply, thread fetches with depth 1 and parent
height 0. -/
def resolverRequestOk : Request → Bool
  | Request.listNotifs _ rs => rs == ["mention", "reply"]
  | Request.postThread r => (r.depth == 1) && (r.parentHeight == 0)
  | _ => true

mutual

/-- No string value under an "At"-ending key anywhere in the value parses as
a datetime: under this condition convert_datetime must be the identity. -/
def noRewriteVal (conv : String → Option String) : Json → Bool
  | Json.obj fields => noRewriteFields conv fields
  | Json.arr items => noRewriteItems conv items
  | _ => true

/-- Field-list form of noRewriteVal. -/
def noRewriteFields (conv : String → Option String) :
    List (String × Json) → Bool
  | [] => true
  | (k, v) :: rest =>
    (match v with
     | Json.str s => !(endsWithStr k "At" && (conv s).isSome)
     | _ => true)
    && noRewriteVal conv v && noRewriteFields conv rest

/-- Item-list form of noRewriteVal. -/
def noRewriteItems (conv : String → Option String) : List Json → Bool
  | [] => true
  | v :: rest => noRewriteVal conv v && noRewriteItems conv rest

end

/-- Sample notification used by the witnesses (spec scenario). -/
def wN1 : Notification := Notification.mk "at://did:plc:a/app.bsky.feed.post/1" "reply"

/-- Second sample notification used by the witnesses (spec scenario). -/
def wN2 : Notification := Notification.mk "at://did:plc:a/app.bsky.feed.post/2" "mention"

/-- Sample thread-view mapping: the first notification's thread has a direct
reply authored by the account, the second has none. -/
def wT : String → ThreadNode := fun u =>
  if u == wN1.uri then
    ThreadNode.viewPost (PostInfo.mk wN1.uri "did:plc:a")
      (some [ThreadNode.viewPost
        (PostInfo.mk "at://did:plc:self/app.bsky.feed.post/9" "did:plc:self") none])
  else ThreadNode.viewPost (PostInfo.mk u "did:plc:a") (some [])

/-- Sample environment where every upstream call succeeds. -/
def wEnv : Env :=
  Env.mk (fun _ _ => Except.ok [wN1, wN2])
    (fun r => Except.ok (wT r.uri))
    (fun _ _ _ => Except.ok Json.null)
    (fun _ _ => Except.ok Json.null)
    (fun a => Except.ok a)
    (some "did:plc:self")
    (fun _ => none)

/-- Sample environment where the thread fetch for the second notification
fails upstream. -/
def wEnvFail : Env :=
  Env.mk (fun _ _ => Except.ok [wN1, wN2])
    (fun r => if r.uri == wN2.uri then Except.error "boom"
              else Except.ok (wT r.uri))
    (fun _ _ _ => Except.ok Json.null)
    (fun _ _ => Except.ok Json.null)
    (fun a => Except.ok a)
    (some "did:plc:self")
    (fun _ => none)

/-- Sample environment whose notification listing is empty. -/
def wEnvEmpty : Env :=
  Env.mk (fun _ _ => Except.ok [])
    (fun _ => Except.error "unused")
    (fun _ _ _ => Except.ok Json.null)
    (fun _ _ => Except.ok Json.null)
    (fun a => Except.ok a)
    (some "did:plc:self")
    (fun _ => none)

/-- Sample datetime conversion collaborator used by the witnesses. -/
def wConv : String → Option String := fun s =>
  if s = "2024-01-01T00:00:00Z" then some "2024-01-01T09:00:00+09:00" else none

theorem memb_append (u : String) (a b : List String) :
    memb u (a ++ b) = (memb u a || memb u b) := by
  induction a with
  | nil => simp [memb]
  | cons v rest ih => simp [memb, ih, Bool.or_assoc]

theorem memb_insertSet (s : List String) (v u : String) :
    memb u (insertSet s v) = (memb u s || (v == u)) := by
  by_cases h : memb v s
  · rw [insertSet, if_pos h]
    cases hvu : (v == u) with
    | true =>
      have hv : v = u := eq_of_beq hvu
      subst hv
      simp [h]
    | false => simp
  · rw [insertSet, if_neg h, memb_append]
    simp [memb]

theorem memb_updateReplied (did : String) (s : List String) (t : ThreadNode)
    (u : String) :
    memb u (updateReplied did s t) = (memb u s || marksUri did t u) := by
  cases t with
  | viewPost post rep =>
    cases rep with
    | none => simp [updateReplied, marksUri]
    | some replies =>
      by_cases h : replies.any (selfReplyItem did)
      · simp [updateReplied, marksUri, h, memb_insertSet]
      · simp [updateReplied, marksUri, h]
  | notFoundPost => simp [updateReplied, marksUri]
  | blockedPost => simp [updateReplied, marksUri]

theorem collectReplied_map_ok (did : String) (f : Notification → ThreadNode) :
    ∀ (l : List Notification) (acc : List String),
      collectReplied did acc (l.map (fun n => Except.ok (f n))) =
        Except.ok (l.foldl (fun a n => updateReplied did a (f n)) acc)
  | [], _ => rfl
  | n :: rest, acc => by
    simp only [List.map_cons, collectReplied, List.foldl_cons]
    exact collectReplied_map_ok did f rest (updateReplied did acc (f n))

theorem memb_foldl_updateReplied (did : String) (f : Notification → ThreadNode)
    (u : String) :
    ∀ (l : List Notification) (acc : List String),
      memb u (l.foldl (fun a n => updateReplied did a (f n)) acc) =
        (memb u acc || l.any (fun n => marksUri did (f n) u))
  | [], acc => by simp
  | n :: rest, acc => by
    simp only [List.foldl_cons, List.any_cons]
    rw [memb_foldl_updateReplied did f u rest (updateReplied did acc (f n)),
        memb_updateReplied]
    simp [Bool.or_assoc]

theorem collectReplied_first_error (did : String) :
    ∀ (rs : List (Except String ThreadNode)) (acc : List String),
      (∃ e, Except.error e ∈ rs) →
      ∃ e, Except.error e ∈ rs ∧
        collectReplied did acc rs =
          Except.error (McpError.mk "failed to get post thread" (some e))
  | [], _, h => absurd h (by simp)
  | r :: rest, acc, h => by
    cases r with
    | error e => exact ⟨e, by simp, by simp [collectReplied]⟩
    | ok t =>
      have htail : ∃ e, Except.error e ∈ rest := by
        obtain ⟨e, he⟩ := h
        cases List.mem_cons.mp he with
        | inl h1 => exact absurd h1 (by simp)
        | inr h2 => exact ⟨e, h2⟩
      obtain ⟨e, hmem, heq⟩ :=
        collectReplied_first_error did rest (updateReplied did acc t) htail
      exact ⟨e, List.mem_cons.mpr (Or.inr hmem),
        by simpa [collectReplied] using heq⟩

theorem tryInto_nonzero_ok (n : Nat) (h1 : n ≠ 0) (h2 : n ≤ 100) :
    tryIntoLimitedNonZeroU8 100 n = Except.ok n := by
  unfold tryIntoLimitedNonZeroU8
  rw [if_neg]
  simp only [Bool.or_eq_true, decide_eq_true_eq, not_or]
  exact ⟨h1, Nat.not_lt.mpr h2⟩

theorem tryInto_nonzero_err (n : Nat) (h : n = 0 ∨ 100 < n) :
    tryIntoLimitedNonZeroU8 100 n = Except.error "out of range" := by
  unfold tryIntoLimitedNonZeroU8
  rw [if_pos]
  rcases h with h | h <;> simp [h]

/-- C9: every notification-reason variant serializes to its fixed lowercase
hyphenated wire token (in particular StarterpackJoined to
"starterpack-joined"), deserializing that token yields the variant back,
and any token outside the closed set is rejected on the decode path. -/
theorem reason_wire_round_trip :
    (∀ r, reasonFromWire (reasonToWire r) = some r)
  ∧ reasonToWire ReasonEnum.starterpackJoined = "starterpack-joined"
  ∧ (∀ s, (∀ r, reasonToWire r ≠ s) → reasonFromWire s = none) := by
  refine ⟨fun r => by cases r <;> rfl, rfl, fun s h => ?_⟩
  unfold reasonFromWire
  split_ifs with h1 h2 h3 h4 h5 h6 h7 h8 h9
  · exact absurd h1.symm (h ReasonEnum.like)
  · exact absurd h2.symm (h ReasonEnum.repost)
  · exact absurd h3.symm (h ReasonEnum.follow)
  · exact absurd h4.symm (h ReasonEnum.mention)
  · exact absurd h5.symm (h ReasonEnum.reply)
  · exact absurd h6.symm (h ReasonEnum.quote)
  · exact absurd h7.symm (h ReasonEnum.starterpackJoined)
  · exact absurd h8.symm (h ReasonEnum.verified)
  · exact absurd h9.symm (h ReasonEnum.unverified)
  · rfl

/-- Witness for reason_wire_round_trip at concrete inputs. -/
theorem reason_wire_round_trip_witness :
    reasonFromWire (reasonToWire ReasonEnum.starterpackJoined) =
      some ReasonEnum.starterpackJoined
  ∧ reasonFromWire "banana" = none :=
  ⟨reason_wire_round_trip.1 ReasonEnum.starterpackJoined,
   reason_wire_round_trip.2.2 "banana" (fun r => by cases r <;> decide)⟩

/-- C3: in create_post with a reply target, the created reply reference has
the target's strong ref as parent; its root is that same strong ref when the
target record carries no reply reference, and the target record's own
reply.root otherwise. -/
theorem create_post_reply_root
    (output : GetRecordOutput) (c : String) (record : PostRecord)
    (hc : output.cid = some c) (hv : output.value = Except.ok record) :
    ∃ rep, create_post_reply_ref output = Except.ok rep ∧
      rep.parent = StrongRef.mk c output.uri ∧
      rep.root = (match record.reply with
                  | none => StrongRef.mk c output.uri
                  | some r => r.root) := by
  unfold create_post_reply_ref
  rw [hc, hv]
  cases hr : record.reply with
  | none => exact ⟨_, rfl, rfl, by rw [hr]⟩
  | some r => exact ⟨_, rfl, by rw [hr], by rw [hr]⟩

/-- Witness for create_post_reply_root: a target post with no reply chain
becomes both parent and root of the created reply. -/
theorem create_post_reply_root_witness :
    ∃ rep,
      create_post_reply_ref
        (GetRecordOutput.mk "at://did:plc:a/app.bsky.feed.post/1"
          (some "bafyCid") (Except.ok (PostRecord.mk "hello" none))) =
        Except.ok rep ∧
      rep.parent = StrongRef.mk "bafyCid" "at://did:plc:a/app.bsky.feed.post/1" ∧
      rep.root = (match (PostRecord.mk "hello" none).reply with
                  | none => StrongRef.mk "bafyCid" "at://did:plc:a/app.bsky.feed.post/1"
                  | some r => r.root) :=
  create_post_reply_root _ "bafyCid" (PostRecord.mk "hello" none) rfl rfl

/-- C4: the claim that no tool handler can hit an out-of-bounds access fails
on the code: get_post indexes the third path segment unconditionally after
splitting, so an AT-URI with only two segments after the scheme makes the
create_post reply path panic with an index out of bounds. -/
theorem get_post_short_uri_out_of_bounds :
    get_post_parse "at://did:plc:alice/app.bsky.feed.post" =
      GetPostStep.panicIndexOutOfBounds 2 := by decide

/-- C5: a caller-supplied limit of zero or above 100 passed to a feed,
search or notification tool (including max_num of get_unreplied_mentions)
fails with the limit validation error and with an empty request trace, so
no upstream request is issued. -/
theorem limit_validation_synchronous (env : Env) (k : Nat)
    (hk : k = 0 ∨ 100 < k) :
    (∀ a wr p, env.parseActor a = Except.ok p →
      get_author_feed env (GetAuthorFeedParams.mk a wr (some k)) =
        (Except.error (McpError.mk "failed to parse limit" (some "out of range")),
         []))
  ∧ (∀ q, search_posts env (SearchPostsParams.mk q (some k)) =
      (Except.error (McpError.mk "failed to parse limit" (some "out of range")),
       []))
  ∧ (∀ rs, _list_notifications env (ListNotificationsParams.mk (some k) rs) =
      (Except.error (McpError.mk "failed to parse limit" (some "out of range")),
       []))
  ∧ get_unreplied_mentions env (some k) =
      (Except.error (McpError.mk "failed to parse limit" (some "out of range")),
       []) := by
  have herr := tryInto_nonzero_err k hk
  refine ⟨fun a wr p hp => ?_, fun q => ?_, fun rs => ?_, ?_⟩
  · simp [get_author_feed, hp, herr]
  · simp [search_posts, herr]
  · simp [_list_notifications, herr]
  · simp [get_unreplied_mentions, _list_notifications, herr]

/-- Witness for limit_validation_synchronous at limit 0. -/
theorem limit_validation_synchronous_witness :
    get_author_feed wEnv (GetAuthorFeedParams.mk "alice.test" none (some 0)) =
      (Except.error (McpError.mk "failed to parse limit" (some "out of range")),
       [])
  ∧ search_posts wEnv (SearchPostsParams.mk "hello" (some 0)) =
      (Except.error (McpError.mk "failed to parse limit" (some "out of range")),
       [])
  ∧ _list_notifications wEnv (ListNotificationsParams.mk (some 0) []) =
      (Except.error (McpError.mk "failed to parse limit" (some "out of range")),
       [])
  ∧ get_unreplied_mentions wEnv (some 0) =
      (Except.error (McpError.mk "failed to parse limit" (some "out of range")),
       []) := by
  have h := limit_validation_synchronous wEnv 0 (Or.inl rfl)
  exact ⟨h.1 "alice.test" none "alice.test" rfl, h.2.1 "hello", h.2.2.1 [],
    h.2.2.2⟩

/-- C8: when the caller omits the field, the issued request uses limit 10
for the author feed, search and notification calls, and depth 1 with parent
height 10 for the thread call. -/
theorem omitted_field_defaults (env : Env) :
    (∀ a wr p, env.parseActor a = Except.ok p →
      (get_author_feed env (GetAuthorFeedParams.mk a wr none)).snd =
        [Request.authorFeed p
          (if wr.getD false then none else some "posts_no_replies") 10])
  ∧ (∀ q, (search_posts env (SearchPostsParams.mk q none)).snd =
      [Request.searchReq q 10])
  ∧ (∀ rs, (_list_notifications env (ListNotificationsParams.mk none rs)).snd =
      [Request.listNotifs 10 (rs.map reasonToWire)])
  ∧ (∀ u, (get_post_thread env (GetPostThreadParams.mk u none none)).snd =
      [Request.postThread (ThreadRequest.mk u 1 10)]) := by
  refine ⟨fun a wr p hp => ?_, fun q => ?_, fun rs => ?_, fun u => ?_⟩
  · cases hf : env.getAuthorFeed p
      (if wr.getD false then none else some "posts_no_replies") 10 with
    | error e => simp [get_author_feed, hp, tryIntoLimitedNonZeroU8,
        DEFAULT_LIMIT, default_limit, hf]
    | ok v => simp [get_author_feed, hp, tryIntoLimitedNonZeroU8,
        DEFAULT_LIMIT, default_limit, hf]
  · cases hf : env.searchPosts q 10 with
    | error e => simp [search_posts, tryIntoLimitedNonZeroU8,
        DEFAULT_LIMIT, default_limit, hf]
    | ok v => simp [search_posts, tryIntoLimitedNonZeroU8,
        DEFAULT_LIMIT, default_limit, hf]
  · cases hf : env.listNotifications 10 (rs.map reasonToWire) with
    | error e => simp [_list_notifications, tryIntoLimitedNonZeroU8,
        DEFAULT_LIMIT, default_limit, hf]
    | ok v => simp [_list_notifications, tryIntoLimitedNonZeroU8,
        DEFAULT_LIMIT, default_limit, hf]
  · cases hf : env.getPostThread (ThreadRequest.mk u 1 10) with
    | error e => simp [get_post_thread, tryIntoLimitedU16, DEFAULT_DEPTH,
        default_depth, DEFAULT_PARENT_HEIGHT, default_parent_height, hf]
    | ok v => simp [get_post_thread, tryIntoLimitedU16, DEFAULT_DEPTH,
        default_depth, DEFAULT_PARENT_HEIGHT, default_parent_height, hf]

/-- Witness for omitted_field_defaults on the sample environment. -/
theorem omitted_field_defaults_witness :
    (get_author_feed wEnv (GetAuthorFeedParams.mk "alice.test" none none)).snd =
      [Request.authorFeed "alice.test" (some "posts_no_replies") 10]
  ∧ (search_posts wEnv (SearchPostsParams.mk "hello" none)).snd =
      [Request.searchReq "hello" 10]
  ∧ (_list_notifications wEnv (ListNotificationsParams.mk none
      [ReasonEnum.mention])).snd =
      [Request.listNotifs 10 ["mention"]]
  ∧ (get_post_thread wEnv (GetPostThreadParams.mk "at://p" none none)).snd =
      [Request.postThread (ThreadRequest.mk "at://p" 1 10)] := by
  have h := omitted_field_defaults wEnv
  exact ⟨h.1 "alice.test" none "alice.test" rfl, h.2.1 "hello",
    h.2.2.1 [ReasonEnum.mention], h.2.2.2 "at://p"⟩

/-- C6: when the notification listing comes back empty,
get_unreplied_mentions returns the empty sequence and its request trace
contains no thread fetch. -/
theorem empty_notifications_no_fetch (env : Env) (maxNum : Option Nat)
    (selfDid : String)
    (hmax : maxNum.getD DEFAULT_LIMIT ≠ 0 ∧ maxNum.getD DEFAULT_LIMIT ≤ 100)
    (hlist : ∀ lim rs, env.listNotifications lim rs = Except.ok [])
    (hdid : env.did = some selfDid) :
    (get_unreplied_mentions env maxNum).fst = Except.ok []
  ∧ (get_unreplied_mentions env maxNum).snd.filter isThreadFetch = [] := by
  have hparse := tryInto_nonzero_ok _ hmax.1 hmax.2
  constructor <;>
    simp [get_unreplied_mentions, _list_notifications, hparse, hlist, hdid,
      collectReplied, isThreadFetch]

/-- Witness for empty_notifications_no_fetch on the empty-list environment. -/
theorem empty_notifications_no_fetch_witness :
    (get_unreplied_mentions wEnvEmpty none).fst = Except.ok []
  ∧ (get_unreplied_mentions wEnvEmpty none).snd.filter isThreadFetch = [] :=
  empty_notifications_no_fetch wEnvEmpty none "did:plc:self" (by decide)
    (fun _ _ => rfl) rfl

/-- C7: every request in the resolver's trace is well formed (notification
listing filtered to exactly mention and reply, thread fetches with depth 1
and parent height 0), and in the successful listing case the trace is
exactly one notification listing followed by one thread fetch per
notification with depth 1 and parent height 0. -/
theorem resolver_request_parameters (env : Env) (maxNum : Option Nat) :
    ((get_unreplied_mentions env maxNum).snd.all resolverRequestOk = true)
  ∧ (∀ notifs lim,
      tryIntoLimitedNonZeroU8 100 (maxNum.getD DEFAULT_LIMIT) = Except.ok lim →
      env.listNotifications lim ["mention", "reply"] = Except.ok notifs →
      (get_unreplied_mentions env maxNum).snd =
        Request.listNotifs lim ["mention", "reply"] ::
          notifs.map (fun n => Request.postThread (ThreadRequest.mk n.uri 1 0))) := by
  constructor
  · cases hp : tryIntoLimitedNonZeroU8 100 (maxNum.getD DEFAULT_LIMIT) with
    | error e => simp [get_unreplied_mentions, _list_notifications, hp]
    | ok lim =>
      cases hl : env.listNotifications lim ["mention", "reply"] with
      | error e =>
        simp [get_unreplied_mentions, _list_notifications, hp, reasonToWire,
          hl, resolverRequestOk]
      | ok notifs =>
        cases hd : env.did with
        | none =>
          simp [get_unreplied_mentions, _list_notifications, hp, reasonToWire,
            hl, hd, resolverRequestOk, List.all_map, Function.comp]
        | some did =>
          cases hc : collectReplied did []
              (notifs.map fun n =>
                env.getPostThread (ThreadRequest.mk n.uri 1 0)) with
          | error e =>
            simp [get_unreplied_mentions, _list_notifications, hp,
              reasonToWire, hl, hd, hc, resolverRequestOk, List.all_map,
              Function.comp]
          | ok rep =>
            simp [get_unreplied_mentions, _list_notifications, hp,
              reasonToWire, hl, hd, hc, resolverRequestOk, List.all_map,
              Function.comp]
  · intro notifs lim hp hl
    cases hd : env.did with
    | none =>
      simp [get_unreplied_mentions, _list_notifications, hp, reasonToWire,
        hl, hd]
    | some did =>
      cases hc : collectReplied did []
          (notifs.map fun n =>
            env.getPostThread (ThreadRequest.mk n.uri 1 0)) with
      | error e =>
        simp [get_unreplied_mentions, _list_notifications, hp, reasonToWire,
          hl, hd, hc]
      | ok rep =>
        simp [get_unreplied_mentions, _list_notifications, hp, reasonToWire,
          hl, hd, hc]

/-- Witness for resolver_request_parameters on the sample environment. -/
theorem resolver_request_parameters_witness :
    ((get_unreplied_mentions wEnv none).snd.all resolverRequestOk = true)
  ∧ (get_unreplied_mentions wEnv none).snd =
      Request.listNotifs 10 ["mention", "reply"] ::
        [wN1, wN2].map (fun n => Request.postThread (ThreadRequest.mk n.uri 1 0)) :=
  ⟨(resolver_request_parameters wEnv none).1,
   (resolver_request_parameters wEnv none).2 [wN1, wN2] 10 rfl rfl⟩

theorem any_marksUri_eq_selfReplied (selfDid : String)
    (T : String → ThreadNode) (notifs : List Notification)
    (hcoh : ∀ n ∈ notifs, rootCoherent (T n.uri) n.uri = true)
    (n : Notification) (hn : n ∈ notifs) :
    (notifs.any (fun n2 => marksUri selfDid (T n2.uri) n.uri)) =
      selfReplied selfDid (T n.uri) := by
  cases hb : selfReplied selfDid (T n.uri) with
  | true =>
    rw [List.any_eq_true]
    refine ⟨n, hn, ?_⟩
    have hc := hcoh n hn
    revert hb hc
    cases hT : T n.uri with
    | viewPost post rep =>
      cases rep with
      | some replies =>
        intro hb hc
        simp only [selfReplied] at hb
        simp only [rootCoherent] at hc
        simp [marksUri, hb, hc]
      | none => intro hb hc; simp [selfReplied] at hb
    | notFoundPost => intro hb hc; simp [selfReplied] at hb
    | blockedPost => intro hb hc; simp [selfReplied] at hb
  | false =>
    rw [List.any_eq_false]
    intro n2 hn2
    have hc2 := hcoh n2 hn2
    cases hT2 : T n2.uri with
    | viewPost post rep =>
      cases rep with
      | some replies =>
        rw [hT2] at hc2
        simp only [rootCoherent] at hc2
        simp only [marksUri, Bool.and_eq_true, not_and]
        intro hany
        cases hbe : (post.uri == n.uri) with
        | false => simp
        | true =>
          exfalso
          have h3 : post.uri = n.uri := eq_of_beq hbe
          have h4 : post.uri = n2.uri := eq_of_beq hc2
          have h5 : T n.uri = T n2.uri := by rw [← h3, h4]
          rw [h5, hT2] at hb
          simp [selfReplied, hany] at hb
      | none => simp [marksUri]
    | notFoundPost => simp [marksUri]
    | blockedPost => simp [marksUri]

/-- C1: when every thread fetch succeeds and each fetched thread view
carries the uri it was requested for, get_unreplied_mentions returns
exactly the notifications whose fetched thread view has no direct reply
authored by the account DID, preserving the listing order. -/
theorem get_unreplied_mentions_spec (env : Env) (maxNum : Option Nat)
    (notifs : List Notification) (selfDid : String) (T : String → ThreadNode)
    (hmax : maxNum.getD DEFAULT_LIMIT ≠ 0 ∧ maxNum.getD DEFAULT_LIMIT ≤ 100)
    (hlist : ∀ lim rs, env.listNotifications lim rs = Except.ok notifs)
    (hdid : env.did = some selfDid)
    (hfetch : ∀ r, env.getPostThread r = Except.ok (T r.uri))
    (hcoh : ∀ n ∈ notifs, rootCoherent (T n.uri) n.uri = true) :
    (get_unreplied_mentions env maxNum).fst =
      Except.ok (notifs.filter (fun n => !(selfReplied selfDid (T n.uri)))) := by
  have hparse := tryInto_nonzero_ok _ hmax.1 hmax.2
  have hmap : (notifs.map fun n =>
      env.getPostThread (ThreadRequest.mk n.uri 1 0)) =
      notifs.map (fun n => Except.ok (T n.uri)) := by
    simp [hfetch]
  simp only [get_unreplied_mentions, _list_notifications, hparse, hlist,
    hdid, hmap, collectReplied_map_ok]
  congr 1
  apply List.filter_congr
  intro n hn
  rw [memb_foldl_updateReplied]
  simp only [memb, Bool.false_or]
  rw [any_marksUri_eq_selfReplied selfDid T notifs hcoh n hn]

/-- Witness for get_unreplied_mentions_spec on the spec's concrete
scenario: the reply-notification whose thread already has a self-authored
reply is dropped, the mention without one is kept. -/
theorem get_unreplied_mentions_spec_witness :
    (get_unreplied_mentions wEnv none).fst = Except.ok [wN2] :=
  (get_unreplied_mentions_spec wEnv none [wN1, wN2] "did:plc:self" wT
    (by decide) (fun _ _ => rfl) rfl (fun _ => rfl) (by decide)).trans
    (by rfl)

/-- C2: when at least one of the dispatched thread fetches fails, the whole
get_unreplied_mentions call returns an error wrapping an underlying fetch
failure, and no notification list is returned. -/
theorem get_unreplied_mentions_fetch_failure (env : Env) (maxNum : Option Nat)
    (notifs : List Notification) (selfDid : String)
    (hmax : maxNum.getD DEFAULT_LIMIT ≠ 0 ∧ maxNum.getD DEFAULT_LIMIT ≤ 100)
    (hlist : ∀ lim rs, env.listNotifications lim rs = Except.ok notifs)
    (hdid : env.did = some selfDid)
    (hfail : ∃ n ∈ notifs, ∃ e,
      env.getPostThread (ThreadRequest.mk n.uri 1 0) = Except.error e) :
    ∃ e, (∃ n ∈ notifs,
        env.getPostThread (ThreadRequest.mk n.uri 1 0) = Except.error e) ∧
      (get_unreplied_mentions env maxNum).fst =
        Except.error (McpError.mk "failed to get post thread" (some e)) := by
  have hparse := tryInto_nonzero_ok _ hmax.1 hmax.2
  have hmem : ∃ e, Except.error e ∈ notifs.map (fun n =>
      env.getPostThread (ThreadRequest.mk n.uri 1 0)) := by
    obtain ⟨n, hn, e, he⟩ := hfail
    exact ⟨e, List.mem_map.mpr ⟨n, hn, he⟩⟩
  obtain ⟨e, hemem, heq⟩ := collectReplied_first_error selfDid
    (notifs.map (fun n => env.getPostThread (ThreadRequest.mk n.uri 1 0)))
    [] hmem
  obtain ⟨n, hn, hne⟩ := List.mem_map.mp hemem
  refine ⟨e, ⟨n, hn, hne⟩, ?_⟩
  simp only [get_unreplied_mentions, _list_notifications, hparse, hlist,
    hdid, heq]

/-- Witness for get_unreplied_mentions_fetch_failure: one of two thread
fetches fails upstream and the whole call errors. -/
theorem get_unreplied_mentions_fetch_failure_witness :
    ∃ e, (∃ n ∈ [wN1, wN2],
        wEnvFail.getPostThread (ThreadRequest.mk n.uri 1 0) = Except.error e) ∧
      (get_unreplied_mentions wEnvFail none).fst =
        Except.error (McpError.mk "failed to get post thread" (some e)) :=
  get_unreplied_mentions_fetch_failure wEnvFail none [wN1, wN2] "did:plc:self"
    (by decide) (fun _ _ => rfl) rfl ⟨wN2, by decide, "boom", rfl⟩

mutual

theorem noRewriteVal_id (conv : String → Option String) :
    ∀ v, noRewriteVal conv v = true → convertVal conv v = v
  | Json.null, _ => rfl
  | Json.bool _, _ => rfl
  | Json.num _, _ => rfl
  | Json.str _, _ => rfl
  | Json.obj fields, h => by
    have h2 : noRewriteFields conv fields = true := by
      simpa [noRewriteVal] using h
    simp only [convertVal]
    rw [noRewriteFields_id conv fields h2]
  | Json.arr items, h => by
    have h2 : noRewriteItems conv items = true := by
      simpa [noRewriteVal] using h
    simp only [convertVal]
    rw [noRewriteItems_id conv items h2]

theorem noRewriteFields_id (conv : String → Option String) :
    ∀ fs, noRewriteFields conv fs = true → convertFields conv fs = fs
  | [], _ => rfl
  | (k, v) :: rest, h => by
    simp only [noRewriteFields, Bool.and_eq_true] at h
    obtain ⟨⟨hg, hv⟩, hrest⟩ := h
    simp only [convertFields]
    rw [noRewriteFields_id conv rest hrest]
    by_cases hk : endsWithStr k "At" = true
    · cases v with
      | str s =>
        have hcs : conv s = none := by
          cases hc : conv s with
          | none => rfl
          | some s2 => simp [hk, hc] at hg
        simp [hk, hcs, convertVal]
      | null => simp [hk, convertVal]
      | bool b => simp [hk, convertVal]
      | num n => simp [hk, convertVal]
      | obj fs2 => simp [hk, noRewriteVal_id conv (Json.obj fs2) hv]
      | arr xs => simp [hk, noRewriteVal_id conv (Json.arr xs) hv]
    · simp [hk, noRewriteVal_id conv v hv]

theorem noRewriteItems_id (conv : String → Option String) :
    ∀ items, noRewriteItems conv items = true → convertItems conv items = items
  | [], _ => rfl
  | v :: rest, h => by
    simp only [noRewriteItems, Bool.and_eq_true] at h
    simp only [convertItems]
    rw [noRewriteVal_id conv v h.1, noRewriteItems_id conv rest h.2]

end

theorem convertFields_keys (conv : String → Option String) :
    ∀ fs : List (String × Json),
      (convertFields conv fs).map Prod.fst = fs.map Prod.fst
  | [] => rfl
  | (k, v) :: rest => by
    simp only [convertFields, List.map_cons]
    rw [convertFields_keys conv rest]

theorem convertItems_eq_map (conv : String → Option String) :
    ∀ items : List Json, convertItems conv items = items.map (convertVal conv)
  | [] => rfl
  | v :: rest => by
    simp only [convertItems, List.map_cons]
    rw [convertItems_eq_map conv rest]

/-- C10: convert_datetime preserves the JSON structure: an object is mapped
to an object with the same keys in the same order, an array keeps its
elements (pointwise converted) and hence its length and order, an "At"-keyed
string that parses as a datetime is rewritten in place to the converted
string, and a value containing no such rewritable string anywhere is
returned unchanged. -/
theorem convert_datetime_frame (conv : String → Option String) :
    (∀ fs, convert_datetime conv (Json.obj fs) = Json.obj (convertFields conv fs)
      ∧ (convertFields conv fs).map Prod.fst = fs.map Prod.fst)
  ∧ (∀ items,
      convert_datetime conv (Json.arr items) = Json.arr (convertItems conv items)
      ∧ convertItems conv items = items.map (convertVal conv)
      ∧ (convertItems conv items).length = items.length)
  ∧ (∀ k s s2 rest, endsWithStr k "At" = true → conv s = some s2 →
      convertFields conv ((k, Json.str s) :: rest) =
        (k, Json.str s2) :: convertFields conv rest)
  ∧ (∀ v, noRewriteVal conv v = true → convert_datetime conv v = v) := by
  refine ⟨fun fs => ⟨?_, convertFields_keys conv fs⟩,
    fun items => ⟨?_, convertItems_eq_map conv items, ?_⟩,
    fun k s s2 rest hk hcs => ?_, fun v hv => noRewriteVal_id conv v hv⟩
  · simp [convert_datetime, convertVal]
  · simp [convert_datetime, convertVal]
  · rw [convertItems_eq_map]; simp
  · simp [convertFields, hk, hcs]

/-- Witness for convert_datetime_frame on a concrete object: the parseable
"createdAt" string is rewritten, the key list is unchanged, and a value
without rewritable strings is returned unchanged. -/
theorem convert_datetime_frame_witness :
    convertFields wConv
      [("createdAt", Json.str "2024-01-01T00:00:00Z"), ("text", Json.str "hi")] =
      ("createdAt", Json.str "2024-01-01T09:00:00+09:00") ::
        convertFields wConv [("text", Json.str "hi")]
  ∧ (convertFields wConv
      [("createdAt", Json.str "2024-01-01T00:00:00Z"), ("text", Json.str "hi")]).map
      Prod.fst = ["createdAt", "text"]
  ∧ convert_datetime wConv (Json.str "hello") = Json.str "hello" :=
  ⟨(convert_datetime_frame wConv).2.2.1 "createdAt" "2024-01-01T00:00:00Z"
      "2024-01-01T09:00:00+09:00" [("text", Json.str "hi")] (by decide) (by decide),
   ((convert_datetime_frame wConv).1
      [("createdAt", Json.str "2024-01-01T00:00:00Z"), ("text", Json.str "hi")]).2.trans
      (by decide),
   (convert_datetime_frame wConv).2.2.2 (Json.str "hello") (by decide)⟩
